import Mathlib

/-!
# Verification of the Hospital CRM query gateway (`src/main.py`)

Shallow embedding of the gateway layer of the Hospital CRM MCP server:
identifier validation, parameter normalization (dates, timestamps, numeric
bounds), query building (statement text plus positionally bound parameters),
and the store-level semantics of the read/insert operations, modelled on an
explicit in-memory relational state.

Conventions:
* Python `raise ValueError(msg)` becomes `Except.error` carrying a value of
  the error taxonomy `Err`; the spec's names (`InvalidIdentifier`,
  `InvalidDate`, `MissingTimestamp`, `OutOfRange`, `MissingRequiredField`)
  are the constructors, each keeping the exact Python message.
* The configured schema is the default `DB_SCHEMA = "hospital_crm"`.
* SQL `numeric` amounts are `Rat`; timestamps held only as opaque data are
  `Int` ticks or the raw strings the gateway passes through.
-/

namespace HospitalCRM

/-- Error taxonomy of the gateway (spec §7), each constructor carrying the
human-readable message the Python code puts in the raised `ValueError`. -/
inductive Err where
  | invalidIdentifier (name : String)
  | invalidDate (text : String)
  | missingTimestamp (msg : String)
  | outOfRange (msg : String)
  | missingRequiredField (msg : String)
  deriving DecidableEq, Repr

/-- `r` is a failure with the `OutOfRange` condition (any message). -/
def failsOutOfRange {α : Type} (r : Except Err α) : Prop :=
  ∃ m, r = Except.error (Err.outOfRange m)

/- ## Identifier validator (`_validate_ident`, src/main.py lines 17-23) -/

/-- First character class of the identifier regex: `[a-zA-Z_]`. -/
def isIdentStart (c : Char) : Bool :=
  (('a' ≤ c && c ≤ 'z') || ('A' ≤ c && c ≤ 'Z') || c == '_')

/-- Continuation character class of the identifier regex: `[a-zA-Z0-9_]`. -/
def isIdentChar (c : Char) : Bool :=
  isIdentStart c || ('0' ≤ c && c ≤ '9')

/-- Matching of `[a-zA-Z0-9_]*$` against the rest of the string, under
Python `re` semantics where `$` matches at the end of the string *or just
before a newline at the end of the string*: each character is either a
continuation character, or the terminating newline when nothing follows. -/
def identTailMatch : List Char → Bool
  | [] => true
  | c :: cs => (c == '\n' && cs.isEmpty) || (isIdentChar c && identTailMatch cs)

/-- `_ident_re.match(s)` succeeds: Python `re.match` of
`^[a-zA-Z_][a-zA-Z0-9_]*$` anchored at the start, with `$` also accepting a
single trailing newline. -/
def identReMatch (s : String) : Bool :=
  match s.toList with
  | [] => false
  | c :: cs => isIdentStart c && identTailMatch cs

/-- `_validate_ident(name)`: raises `Invalid identifier` when the regex does
not match, otherwise returns the name unchanged. -/
def validate_ident (name : String) : Except Err String :=
  if identReMatch name then Except.ok name
  else Except.error (Err.invalidIdentifier name)

/-- The identifier grammar of the spec, read as a grammar (full match of
`[A-Za-z_][A-Za-z0-9_]*`, nothing more): nonempty, head in the start class,
every further character in the continuation class. -/
def identGrammar (s : String) : Bool :=
  match s.toList with
  | [] => false
  | c :: cs => isIdentStart c && cs.all isIdentChar

/-- Configured schema name: the default of `DB_SCHEMA`. -/
def DB_SCHEMA : String := "hospital_crm"

/-- `_q_table(table)`: schema-qualified, double-quoted table reference built
after validating both identifiers.  Both always succeed for the hard-coded
table names and the default schema; the builder functions below use the
resulting text. -/
def q_table (table : String) : String :=
  "\"" ++ DB_SCHEMA ++ "\".\"" ++ table ++ "\""

/- ## Parameter normalizer: dates (`_parse_date`, lines 45-49) -/

/-- A calendar date as produced by `datetime.date`. -/
structure SDate where
  year : Nat
  month : Nat
  day : Nat
  deriving DecidableEq, Repr

/-- Gregorian leap-year rule used by `datetime.date`. -/
def isLeap (y : Nat) : Bool :=
  (y % 4 == 0 && y % 100 != 0) || y % 400 == 0

/-- Number of days of month `m` of year `y`. -/
def daysInMonth (y m : Nat) : Nat :=
  if m == 2 then (if isLeap y then 29 else 28)
  else if m == 4 || m == 6 || m == 9 || m == 11 then 30
  else 31

/-- Decimal digit test, stated on code points as the C implementation
of the parser states it. -/
def isDig (c : Char) : Bool := 48 ≤ c.toNat && c.toNat ≤ 57

/-- Numeric value of a decimal digit character. -/
def digitVal (c : Char) : Nat := c.toNat - 48

/- `date.fromisoformat`, modelled on CPython 3.11+ (`parse_isoformat_date`
in `Modules/_datetimemodule.c`): the repository pins no Python version
(its dependencies only require ≥ 3.10), and from 3.11 on the parser
accepts, besides strict `YYYY-MM-DD`, the compressed `YYYYMMDD` form and
the ISO week-date forms `YYYY-Www`, `YYYY-Www-D`, `YYYYWww`, `YYYYWwwD`.
The proleptic-Gregorian ordinal arithmetic below mirrors the C helpers
(`ymd_to_ord`, `ord_to_ymd`, `weekday`, `iso_week1_monday`,
`iso_to_ymd`); the month of an ordinal is located by a linear scan,
functionally equal to the source's estimate-and-adjust. -/

/-- Days in all years preceding year `y` (proleptic Gregorian,
`days_before_year`). -/
def daysBeforeYear (y : Nat) : Nat :=
  (y - 1) * 365 + ((y - 1) / 4 - (y - 1) / 100 + (y - 1) / 400)

/-- Days in all months of year `y` preceding month `m`
(`days_before_month`). -/
def daysBeforeMonth (y m : Nat) : Nat :=
  (List.range (m - 1)).foldl (fun acc i => acc + daysInMonth y (i + 1)) 0

/-- Ordinal day number of a date, with `0001-01-01` as day 1
(`ymd_to_ord`). -/
def ymd_to_ord (y m d : Nat) : Nat := daysBeforeYear y + daysBeforeMonth y m + d

/-- Locates the month containing the `r`-th remaining day (0-based) of
year `y`, scanning from month `m`. -/
def monthLoop (y m r : Nat) : Nat × Nat × Nat :=
  if m < 12 then
    if r < daysInMonth y m then (y, m, r + 1)
    else monthLoop y (m + 1) (r - daysInMonth y m)
  else (y, 12, r + 1)
  termination_by 12 - m

/-- Inverse of `ymd_to_ord` (`ord_to_ymd`): 400/100/4/1-year cycle
decomposition, then the month scan. -/
def ord_to_ymd (n : Nat) : Nat × Nat × Nat :=
  let n0 := n - 1
  let n400 := n0 / 146097
  let r0 := n0 % 146097
  let n100 := r0 / 36524
  let r1 := r0 % 36524
  let n4 := r1 / 1461
  let r2 := r1 % 1461
  let n1 := r2 / 365
  let r3 := r2 % 365
  let year := n400 * 400 + 1 + n100 * 100 + n4 * 4 + n1
  if n1 == 4 || n100 == 4 then (year - 1, 12, 31)
  else monthLoop year 1 r3

/-- Ordinal of the Monday of ISO week 1 of `y` (`iso_week1_monday`):
weekday 0 is Monday; week 1 is the week containing the first Thursday. -/
def iso_week1_monday (y : Nat) : Int :=
  let first_day : Int := (ymd_to_ord y 1 1 : Nat)
  let first_weekday := (first_day + 6) % 7
  let week1_monday := first_day - first_weekday
  if first_weekday > 3 then week1_monday + 7 else week1_monday

/-- ISO week date to Gregorian (`iso_to_ymd` plus the `date` constructor's
range check): week in 1..52, or 53 when the ISO year has 53 weeks (first
weekday Thursday, or Wednesday in a leap year); day in 1..7. -/
def isoToDate (y w dayno : Nat) : Option SDate :=
  if y < 1 then none
  else if w < 1 || 53 < w then none
  else if w == 53 &&
      !(let fw := (ymd_to_ord y 1 1 + 6) % 7
        fw == 3 || (fw == 2 && isLeap y)) then none
  else if dayno < 1 || 7 < dayno then none
  else
    let ord : Int := iso_week1_monday y + ((w : Int) - 1) * 7 + ((dayno : Int) - 1)
    if ord < 1 then none
    else
      let t := ord_to_ymd ord.toNat
      if 1 ≤ t.1 && t.1 ≤ 9999 then some ⟨t.1, t.2.1, t.2.2⟩ else none

/-- Validated `datetime.date` construction for the month branch. -/
def mkDate (y m d : Nat) : Option SDate :=
  if 1 ≤ y && y ≤ 9999 && 1 ≤ m && m ≤ 12 && 1 ≤ d && d ≤ daysInMonth y m then
    some ⟨y, m, d⟩
  else none

/-- The characters after `YYYY[-]W`: exactly two week digits, then either
nothing (day defaults to 1) or — behind a separator exactly when the year
used one — exactly one day digit, ending the string. -/
def parseWeek (y : Nat) (hasSep : Bool) (l : List Char) : Option SDate :=
  match l with
  | w1 :: w2 :: rest =>
    if isDig w1 && isDig w2 then
      match rest with
      | [] => isoToDate y (digitVal w1 * 10 + digitVal w2) 1
      | _ =>
        match (if hasSep then
                 match rest with
                 | '-' :: t => some t
                 | _ => none
               else some rest) with
        | some [d1] =>
          if isDig d1 then
            isoToDate y (digitVal w1 * 10 + digitVal w2) (digitVal d1)
          else none
        | _ => none
    else none
  | _ => none

/-- The characters after `YYYY[-]` in the month branch: exactly two month
digits, a separator exactly when the year used one, exactly two day
digits, ending the string. -/
def parseMonth (y : Nat) (hasSep : Bool) (l : List Char) : Option SDate :=
  match l with
  | m1 :: m2 :: rest =>
    if isDig m1 && isDig m2 then
      match (if hasSep then
               match rest with
               | '-' :: t => some t
               | _ => none
             else some rest) with
      | some [d1, d2] =>
        if isDig d1 && isDig d2 then
          mkDate y (digitVal m1 * 10 + digitVal m2)
            (digitVal d1 * 10 + digitVal d2)
        else none
      | _ => none
    else none
  | _ => none

/-- After the year and optional separator: `W` selects the week branch,
anything else the month branch. -/
def fromisoformatTail (y : Nat) (hasSep : Bool) (l : List Char) : Option SDate :=
  match l with
  | c :: rest =>
    if c == 'W' then parseWeek y hasSep rest
    else parseMonth y hasSep (c :: rest)
  | [] => none

/-- `date.fromisoformat` (CPython 3.11+): four year digits, an optional
`-` separator fixing the format's separator use, then the week or month
branch. -/
def fromisoformat (s : String) : Option SDate :=
  match s.data with
  | y1 :: y2 :: y3 :: y4 :: rest =>
    if isDig y1 && isDig y2 && isDig y3 && isDig y4 then
      let y := ((digitVal y1 * 10 + digitVal y2) * 10 + digitVal y3) * 10 + digitVal y4
      match rest with
      | '-' :: rest' => fromisoformatTail y true rest'
      | _ => fromisoformatTail y false rest
    else none
  | _ => none

/-- `_parse_date(value)`: `None` or `""` means "no value"; every other
string is handed to `date.fromisoformat`, any rejected input raising
`InvalidDate`. -/
def parse_date (value : Option String) : Except Err (Option SDate) :=
  match value with
  | none => Except.ok none
  | some v =>
    if v == "" then Except.ok none
    else
      match fromisoformat v with
      | some d => Except.ok (some d)
      | none => Except.error (Err.invalidDate v)

/- ## Parameter normalizer: timestamps (`_parse_ts`, lines 51-59) -/

/-- Characters removed by Python `str.strip()` (ASCII whitespace). -/
def pyIsSpace (c : Char) : Bool :=
  c == ' ' || c == '\t' || c == '\n' || c == '\r' ||
  c == '\x0b' || c == '\x0c'

/-- Python `value.strip()`. -/
def pyStrip (s : String) : String :=
  ⟨(s.toList.dropWhile pyIsSpace).reverse.dropWhile pyIsSpace |>.reverse⟩

/-- `_parse_ts(value)`: fails with `timestamp is required` when the text is
empty or blank after trimming, otherwise passes the trimmed text through. -/
def parse_ts (value : String) : Except Err String :=
  if value == "" || pyStrip value == "" then
    Except.error (Err.missingTimestamp ("timestamp is required"))
  else Except.ok (pyStrip value)

/- ## Query builder: statements as text plus positionally bound parameters -/

/-- A value positionally bound to a `%s` placeholder. -/
inductive SqlParam where
  | int (i : Int)
  | str (s : String)
  | date (d : SDate)
  | null
  deriving DecidableEq, Repr

/-- A built statement: text with `%s` placeholders plus the ordered
parameter list handed to `cur.execute`. -/
structure Stmt where
  text : String
  params : List SqlParam
  deriving DecidableEq, Repr

/-- Python truthiness of an `Optional[str]` argument (`if mrn:`):
false for `None` and for the empty string. -/
def optTruthy : Option String → Bool
  | none => false
  | some s => !(s == "")

/-- `value` of a truthy `Optional[str]` (only used under `optTruthy`). -/
def optVal : Option String → String
  | none => ""
  | some s => s

/- Substring testing over statement texts (used to reason about where the
`limit` placeholder does and does not occur). -/

/-- `p` is a prefix of `s` (character lists). -/
def listIsPrefix : List Char → List Char → Bool
  | [], _ => true
  | _ :: _, [] => false
  | p :: ps, c :: cs => p == c && listIsPrefix ps cs

/-- `p` occurs as a contiguous run inside `s` (character lists). -/
def listInfix (p : List Char) : List Char → Bool
  | [] => listIsPrefix p []
  | c :: cs => listIsPrefix p (c :: cs) || listInfix p cs

/-- `pat` occurs as a substring of `s`. -/
def strContains (s pat : String) : Bool := listInfix pat.data s.data

/- ### Statement texts, with the schema/table interpolations of the source
already carried out for the default schema (each goes through
`_q_table`, i.e. `_validate_ident` on both parts; every hard-coded table
name and the default schema match the identifier regex — see
`hardcoded_idents_valid`). -/

/-- Text of the `list_tables` statement (lines 80-85). -/
def list_tables_text : String :=
  "\n    select table_name\n    from information_schema.tables\n    where table_schema=%s and table_type=\x27BASE TABLE\x27\n    order by table_name;\n    "

/-- `list_tables` statement: the schema name is the single bound parameter. -/
def list_tables_stmt : Stmt :=
  { text := list_tables_text, params := [SqlParam.str DB_SCHEMA] }

/-- Text of the `get_patient` statement (lines 135-139). -/
def get_patient_text : String :=
  "\n    select *\n    from " ++ q_table ("patients") ++ "\n    where patient_id = %s\n    "

/-- `get_patient` statement. -/
def get_patient_stmt (patient_id : Int) : Stmt :=
  { text := get_patient_text, params := [SqlParam.int patient_id] }

/-- Text of the `get_patient_contacts` statement (lines 149-154). -/
def get_patient_contacts_text : String :=
  "\n    select contact_id, relationship, full_name, phone, email, is_primary, created_at\n    from " ++ q_table ("patient_contacts") ++ "\n    where patient_id = %s\n    order by is_primary desc, created_at desc\n    "

/-- `get_patient_contacts` statement. -/
def get_patient_contacts_stmt (patient_id : Int) : Stmt :=
  { text := get_patient_contacts_text, params := [SqlParam.int patient_id] }

/-- Text of the `allergies_for_patient` statement (lines 386-391). -/
def allergies_text : String :=
  "\n    select allergy_id, allergen, reaction, severity, noted_at, status\n    from " ++ q_table ("allergies") ++ "\n    where patient_id = %s\n    order by noted_at desc nulls last\n    "

/-- `allergies_for_patient` statement. -/
def allergies_stmt (patient_id : Int) : Stmt :=
  { text := allergies_text, params := [SqlParam.int patient_id] }

/-- `search_patients` statement text as a function of the assembled
`where` fragment (lines 118-124). -/
def search_patients_text (w : String) : String :=
  "\n    select patient_id, mrn, first_name, last_name, dob, sex, phone, email, status, created_at\n    from " ++ q_table ("patients") ++ "\n    " ++ w ++ "\n    order by last_name, first_name\n    limit %s\n    "

/-- The `where` fragment and ordered filter parameters built by
`search_patients` (lines 105-117): optional clauses joined by `and`,
each contributing its bound values in clause order. -/
def search_patients_clauses (name mrn : Option String) : List String × List SqlParam :=
  let cls0 : List String := if optTruthy mrn then ["mrn = %s"] else []
  let ps0 : List SqlParam := if optTruthy mrn then [SqlParam.str (optVal mrn)] else []
  let like := "%" ++ optVal name ++ "%"
  let cls1 : List String :=
    if optTruthy name then ["(first_name ILIKE %s OR last_name ILIKE %s)"] else []
  let ps1 : List SqlParam :=
    if optTruthy name then [SqlParam.str like, SqlParam.str like] else []
  (cls0 ++ cls1, ps0 ++ ps1)

/-- `search_patients` built statement (lines 93-128): bounds check on
`limit`, conditional clauses, `limit` appended as the last parameter. -/
def search_patients_stmt (name mrn : Option String) (limit : Int) : Except Err Stmt :=
  if limit < 1 || limit > 200 then
    Except.error (Err.outOfRange ("limit must be between 1 and 200"))
  else
    let cp := search_patients_clauses name mrn
    let w := if cp.1.isEmpty then "" else " where " ++ String.intercalate (" and ") cp.1
    Except.ok { text := search_patients_text w, params := cp.2 ++ [SqlParam.int limit] }

/-- Text of the `upcoming_appointments_for_patient` statement
(lines 170-191). -/
def upcoming_for_patient_text : String :=
  "\n    select\n      a.appointment_id,\n      a.starts_at,\n      a.ends_at,\n      a.status,\n      a.reason,\n      a.location,\n      a.case_id,\n      p.provider_id,\n      p.first_name as provider_first_name,\n      p.last_name as provider_last_name,\n      d.name as department_name\n    from " ++ q_table ("appointments") ++ " a\n    left join " ++ q_table ("providers") ++ " p on p.provider_id = a.provider_id\n    left join " ++ q_table ("departments") ++ " d on d.department_id = a.department_id\n    where a.patient_id = %s\n      and a.starts_at >= now()\n      and a.starts_at < (now() + (%s || \x27 days\x27)::interval)\n    order by a.starts_at asc\n    limit %s\n    "

/-- `upcoming_appointments_for_patient` built statement (lines 162-194):
`days` checked before `limit`, both before any statement exists. -/
def upcoming_for_patient_stmt (patient_id days limit : Int) : Except Err Stmt :=
  if days < 1 || days > 365 then
    Except.error (Err.outOfRange ("days must be between 1 and 365"))
  else if limit < 1 || limit > 200 then
    Except.error (Err.outOfRange ("limit must be between 1 and 200"))
  else
    Except.ok { text := upcoming_for_patient_text,
                params := [SqlParam.int patient_id, SqlParam.int days, SqlParam.int limit] }

/-- Text of the `upcoming_appointments_for_provider` statement
(lines 205-225). -/
def upcoming_for_provider_text : String :=
  "\n    select\n      a.appointment_id,\n      a.starts_at,\n      a.ends_at,\n      a.status,\n      a.reason,\n      a.location,\n      a.patient_id,\n      pt.first_name as patient_first_name,\n      pt.last_name as patient_last_name,\n      d.name as department_name\n    from " ++ q_table ("appointments") ++ " a\n    left join " ++ q_table ("patients") ++ " pt on pt.patient_id = a.patient_id\n    left join " ++ q_table ("departments") ++ " d on d.department_id = a.department_id\n    where a.provider_id = %s\n      and a.starts_at >= now()\n      and a.starts_at < (now() + (%s || \x27 days\x27)::interval)\n    order by a.starts_at asc\n    limit %s\n    "

/-- `upcoming_appointments_for_provider` built statement (lines 197-228). -/
def upcoming_for_provider_stmt (provider_id days limit : Int) : Except Err Stmt :=
  if days < 1 || days > 365 then
    Except.error (Err.outOfRange ("days must be between 1 and 365"))
  else if limit < 1 || limit > 200 then
    Except.error (Err.outOfRange ("limit must be between 1 and 200"))
  else
    Except.ok { text := upcoming_for_provider_text,
                params := [SqlParam.int provider_id, SqlParam.int days, SqlParam.int limit] }

/-- Texts of the five `patient_case_timeline` sub-statements
(lines 248-310). -/
def timeline_cases_text : String :=
  "\n            select case_id, status, priority, chief_complaint, diagnosis, opened_at, closed_at, provider_id, department_id\n            from " ++ q_table ("cases") ++ "\n            where patient_id = %s\n            order by opened_at desc nulls last\n            limit %s\n            "

/-- Timeline sub-statement text: encounters. -/
def timeline_encounters_text : String :=
  "\n            select encounter_id, case_id, started_at, ended_at, encounter_type, location, status\n            from " ++ q_table ("encounters") ++ "\n            where patient_id = %s\n            order by started_at desc nulls last\n            limit %s\n            "

/-- Timeline sub-statement text: notes. -/
def timeline_notes_text : String :=
  "\n            select note_id, case_id, appointment_id, created_at, note_type, title\n            from " ++ q_table ("notes") ++ "\n            where patient_id = %s\n            order by created_at desc\n            limit %s\n            "

/-- Timeline sub-statement text: tasks. -/
def timeline_tasks_text : String :=
  "\n            select task_id, case_id, due_at, status, priority, title, assigned_provider_id, created_at\n            from " ++ q_table ("tasks") ++ "\n            where patient_id = %s\n            order by created_at desc\n            limit %s\n            "

/-- Timeline sub-statement text: communications. -/
def timeline_communications_text : String :=
  "\n            select communication_id, case_id, appointment_id, created_at, channel, direction, subject, status\n            from " ++ q_table ("communications") ++ "\n            where patient_id = %s\n            order by created_at desc\n            limit %s\n            "

/-- `patient_case_timeline` built statements (lines 233-319): the
`limit_per_type` bounds check precedes all five statements; on success the
five statements are issued in order against one connection. -/
def patient_case_timeline_stmts (patient_id limit_per_type : Int) :
    Except Err (List Stmt) :=
  if limit_per_type < 1 || limit_per_type > 200 then
    Except.error (Err.outOfRange ("limit_per_type must be between 1 and 200"))
  else
    let ps := [SqlParam.int patient_id, SqlParam.int limit_per_type]
    Except.ok
      [ { text := timeline_cases_text, params := ps },
        { text := timeline_encounters_text, params := ps },
        { text := timeline_notes_text, params := ps },
        { text := timeline_tasks_text, params := ps },
        { text := timeline_communications_text, params := ps } ]

/-- Text of the `outstanding_invoices` statement (lines 330-349): payments
summed per invoice in a derived table, balance computed and filtered in the
outer query. -/
def outstanding_invoices_text : String :=
  "\n    select\n      i.invoice_id,\n      i.status,\n      i.issued_at,\n      i.due_at,\n      i.total_amount,\n      coalesce(paid.paid_amount, 0) as paid_amount,\n      (i.total_amount - coalesce(paid.paid_amount, 0)) as balance\n    from " ++ q_table ("invoices") ++ " i\n    left join (\n      select invoice_id, sum(amount) as paid_amount\n      from " ++ q_table ("payments") ++ "\n      group by invoice_id\n    ) paid on paid.invoice_id = i.invoice_id\n    where i.patient_id = %s\n      and (i.total_amount - coalesce(paid.paid_amount, 0)) > 0\n    order by i.due_at asc nulls last, i.issued_at desc\n    limit %s\n    "

/-- `outstanding_invoices` built statement (lines 324-352). -/
def outstanding_invoices_stmt (patient_id limit : Int) : Except Err Stmt :=
  if limit < 1 || limit > 200 then
    Except.error (Err.outOfRange ("limit must be between 1 and 200"))
  else
    Except.ok { text := outstanding_invoices_text,
                params := [SqlParam.int patient_id, SqlParam.int limit] }

/-- Text of the `claim_status_for_patient` statement (lines 361-375). -/
def claim_status_text : String :=
  "\n    select\n      c.claim_id,\n      c.status,\n      c.submitted_at,\n      c.updated_at,\n      c.payer_id,\n      py.name as payer_name,\n      c.total_claim_amount\n    from " ++ q_table ("claims") ++ " c\n    left join " ++ q_table ("payers") ++ " py on py.payer_id = c.payer_id\n    where c.patient_id = %s\n    order by c.updated_at desc nulls last, c.submitted_at desc nulls last\n    limit %s\n    "

/-- `claim_status_for_patient` built statement (lines 355-378). -/
def claim_status_stmt (patient_id limit : Int) : Except Err Stmt :=
  if limit < 1 || limit > 200 then
    Except.error (Err.outOfRange ("limit must be between 1 and 200"))
  else
    Except.ok { text := claim_status_text,
                params := [SqlParam.int patient_id, SqlParam.int limit] }

/-- Text of the `active_prescriptions` statement (lines 403-418): the
`active` status filter is a hard-coded literal, not a parameter. -/
def active_prescriptions_text : String :=
  "\n    select\n      pr.prescription_id,\n      pr.status,\n      pr.start_date,\n      pr.end_date,\n      pr.dosage_instructions,\n      m.medication_id,\n      m.name as medication_name\n    from " ++ q_table ("prescriptions") ++ " pr\n    left join " ++ q_table ("medications") ++ " m on m.medication_id = pr.medication_id\n    where pr.patient_id = %s\n      and pr.status = \x27active\x27\n    order by pr.start_date desc nulls last\n    limit %s\n    "

/-- `active_prescriptions` built statement (lines 397-421). -/
def active_prescriptions_stmt (patient_id limit : Int) : Except Err Stmt :=
  if limit < 1 || limit > 200 then
    Except.error (Err.outOfRange ("limit must be between 1 and 200"))
  else
    Except.ok { text := active_prescriptions_text,
                params := [SqlParam.int patient_id, SqlParam.int limit] }

/- ## Store model

An explicit in-memory relational state standing for the Postgres schema.
Rows model exactly the columns the gateway reads back; columns that are
only ever written and never read by any modelled operation (the address
block and country of `patients`) are elided.  `numeric` amounts are `Rat`;
`timestamptz` values that the gateway never inspects are opaque `Int`
ticks, and appointment timestamps are the raw text the gateway passes
through (the store's parser is external). -/

/-- A row of `patients` as read back by the gateway (the column list of
`search_patients` / `create_patient RETURNING`). -/
structure Patient where
  patient_id : Int
  mrn : Option String
  first_name : String
  last_name : String
  dob : Option SDate
  sex : Option String
  phone : Option String
  email : Option String
  status : String
  created_at : Int
  deriving DecidableEq, Repr

/-- A row of `appointments` as returned by `create_appointment RETURNING`. -/
structure Appointment where
  appointment_id : Int
  patient_id : Int
  provider_id : Option Int
  department_id : Option Int
  case_id : Option Int
  starts_at : String
  ends_at : Option String
  status : String
  reason : Option String
  location : Option String
  created_at : Int
  deriving DecidableEq, Repr

/-- A row of `invoices` (columns read by `outstanding_invoices`). -/
structure Invoice where
  invoice_id : Int
  patient_id : Int
  status : String
  issued_at : Option Int
  due_at : Option Int
  total_amount : Rat
  deriving DecidableEq, Repr

/-- A row of `payments` (columns read by the payments sub-query). -/
structure Payment where
  payment_id : Int
  invoice_id : Int
  amount : Rat
  deriving DecidableEq, Repr

/-- The store state: the tables the modelled operations touch, the id
sequences backing the serial primary keys, and the `now()` clock. -/
structure DB where
  patients : List Patient
  appointments : List Appointment
  invoices : List Invoice
  payments : List Payment
  nextPatientId : Int
  nextAppointmentId : Int
  now : Int
  deriving DecidableEq, Repr

/-- The empty store. -/
def emptyDB : DB :=
  { patients := [], appointments := [], invoices := [], payments := [],
    nextPatientId := 1, nextAppointmentId := 1, now := 0 }

/-- Store well-formedness: the id sequence is ahead of every existing row,
as Postgres serial sequences guarantee. -/
def WF (db : DB) : Prop :=
  ∀ p ∈ db.patients, p.patient_id < db.nextPatientId

/- ## SQL LIKE / ILIKE pattern matching -/

/-- SQL `LIKE` matching: `%` matches any sequence, `_` any single
character, anything else itself. -/
def likeMatch (p s : List Char) : Bool :=
  match p, s with
  | [], s => s.isEmpty
  | p₀ :: ps, s =>
    if p₀ == '%' then
      likeMatch ps s ||
        (match s with
         | [] => false
         | _ :: s' => likeMatch (p₀ :: ps) s')
    else
      match s with
      | [] => false
      | c :: s' => (p₀ == '_' || p₀ == c) && likeMatch ps s'
  termination_by (p.length, s.length)

/-- Lower-casing of a character list (`ILIKE` folds case on both sides). -/
def lowerL (l : List Char) : List Char := l.map Char.toLower

/-- SQL `ILIKE`: case-insensitive `LIKE`. -/
def ilike (pat s : String) : Bool := likeMatch (lowerL pat.data) (lowerL s.data)

/-- Case-insensitive substring occurrence (the spec's reading of the
wrapped-wildcard pattern). -/
def icontains (field sub : String) : Bool :=
  listInfix (lowerL sub.data) (lowerL field.data)

/- ## Read operations, store-level semantics -/

/-- The row filter of `search_patients`: the conjunction of the
conditionally included clauses (`mrn = %s`; `first_name ILIKE %s OR
last_name ILIKE %s` with the input wrapped in `%` wildcards). -/
def searchFilter (name mrn : Option String) (p : Patient) : Bool :=
  (if optTruthy mrn then
     (match p.mrn with
      | some m => m == optVal mrn
      | none => false)
   else true) &&
  (if optTruthy name then
     (ilike ("%" ++ optVal name ++ "%") p.first_name ||
      ilike ("%" ++ optVal name ++ "%") p.last_name)
   else true)

/-- `order by last_name, first_name`. -/
def searchOrder (p q : Patient) : Bool :=
  p.last_name < q.last_name ||
    (p.last_name == q.last_name && p.first_name ≤ q.first_name)

/-- `search_patients` against the store: bounds check, filter, fixed
ordering, bound `limit`. -/
def searchPatients (db : DB) (name mrn : Option String) (limit : Int) :
    Except Err (List Patient) :=
  if limit < 1 || limit > 200 then
    Except.error (Err.outOfRange ("limit must be between 1 and 200"))
  else
    Except.ok
      (((db.patients.filter (searchFilter name mrn)).mergeSort searchOrder).take
        limit.toNat)

/-- Result of `get_patient`: the first matching row, or the explicit
not-found sentinel the source returns (`{"error": "patient not found"}`) —
a distinguished value, not a raised failure. -/
inductive GetPatientResult where
  | found (p : Patient)
  | notFoundSentinel
  deriving DecidableEq, Repr

/-- `get_patient` against the store: `fetchone` of the single-id lookup,
with the sentinel when no row matches. -/
def getPatient (db : DB) (patient_id : Int) : GetPatientResult :=
  match db.patients.find? (fun p => p.patient_id == patient_id) with
  | some p => GetPatientResult.found p
  | none => GetPatientResult.notFoundSentinel

/-- The `payments` rows of one invoice. -/
def invoicePayments (db : DB) (invoice_id : Int) : List Payment :=
  db.payments.filter (fun pm => pm.invoice_id == invoice_id)

/-- `sum(amount)` of the derived table, seen through the left join:
`none` (SQL NULL) when the invoice has no payment rows. -/
def paid_amount_opt (db : DB) (invoice_id : Int) : Option Rat :=
  let ps := invoicePayments db invoice_id
  if ps.isEmpty then none else some ((ps.map Payment.amount).sum)

/-- A result record of `outstanding_invoices`, including the derived
`paid_amount` and `balance` columns. -/
structure OutInvoiceRec where
  invoice_id : Int
  status : String
  issued_at : Option Int
  due_at : Option Int
  total_amount : Rat
  paid_amount : Rat
  balance : Rat
  deriving DecidableEq, Repr

/-- Row mapping of `outstanding_invoices`: `coalesce(paid_amount, 0)` and
`total_amount - coalesce(paid_amount, 0)`. -/
def outRec (db : DB) (i : Invoice) : OutInvoiceRec :=
  let paid := (paid_amount_opt db i.invoice_id).getD 0
  { invoice_id := i.invoice_id, status := i.status, issued_at := i.issued_at,
    due_at := i.due_at, total_amount := i.total_amount, paid_amount := paid,
    balance := i.total_amount - paid }

/-- The `where` clause of `outstanding_invoices`: the patient's invoices
whose computed balance is strictly positive. -/
def outstandingFilter (db : DB) (patient_id : Int) (i : Invoice) : Bool :=
  i.patient_id == patient_id &&
    decide (0 < i.total_amount - (paid_amount_opt db i.invoice_id).getD 0)

/-- `order by i.due_at asc nulls last, i.issued_at desc`. -/
def outstandingOrder (a b : Invoice) : Bool :=
  match a.due_at, b.due_at with
  | none, none => issuedDesc a b
  | none, some _ => false
  | some _, none => true
  | some x, some y => x < y || (x == y && issuedDesc a b)
where
  /-- secondary key: `issued_at desc`. -/
  issuedDesc (a b : Invoice) : Bool :=
    match a.issued_at, b.issued_at with
    | none, none => true
    | none, some _ => true
    | some _, none => false
    | some x, some y => y ≤ x

/-- `outstanding_invoices` against the store. -/
def outstandingInvoices (db : DB) (patient_id limit : Int) :
    Except Err (List OutInvoiceRec) :=
  if limit < 1 || limit > 200 then
    Except.error (Err.outOfRange ("limit must be between 1 and 200"))
  else
    Except.ok
      ((((db.invoices.filter (outstandingFilter db patient_id)).mergeSort
          outstandingOrder).take limit.toNat).map (outRec db))

/- ## Insert operations, store-level semantics -/

/-- `create_patient` (lines 426-475): required-field checks in source
order, `_parse_date` on `dob`, then the insert with a fresh serial id and
store-generated `created_at`; returns the new state and the `RETURNING`
record. -/
def createPatient (db : DB) (first_name last_name : String)
    (mrn dob sex phone email : Option String) (status : String) :
    Except Err (DB × Patient) :=
  if first_name == "" || pyStrip first_name == "" then
    Except.error (Err.missingRequiredField ("first_name is required"))
  else if last_name == "" || pyStrip last_name == "" then
    Except.error (Err.missingRequiredField ("last_name is required"))
  else
    match parse_date dob with
    | Except.error e => Except.error e
    | Except.ok dob_val =>
      let p : Patient :=
        { patient_id := db.nextPatientId, mrn := mrn,
          first_name := pyStrip first_name, last_name := pyStrip last_name,
          dob := dob_val, sex := sex, phone := phone, email := email,
          status := status, created_at := db.now }
      Except.ok
        ({ db with patients := db.patients ++ [p],
                   nextPatientId := db.nextPatientId + 1 }, p)

/-- `create_appointment` (lines 480-522): `patient_id` truthiness check,
`_parse_ts` on `starts_at`, `_parse_ts` on `ends_at` only when truthy,
then the insert; returns the new state and the `RETURNING` record. -/
def createAppointment (db : DB) (patient_id : Int) (starts_at : String)
    (ends_at : Option String) (provider_id department_id case_id : Option Int)
    (status : String) (reason location : Option String) :
    Except Err (DB × Appointment) :=
  if patient_id == 0 then
    Except.error (Err.missingRequiredField ("patient_id is required"))
  else
    match parse_ts starts_at with
    | Except.error e => Except.error e
    | Except.ok starts_at_val =>
      match (if optTruthy ends_at then
               (parse_ts (optVal ends_at)).map some
             else Except.ok none) with
      | Except.error e => Except.error e
      | Except.ok ends_at_val =>
        let a : Appointment :=
          { appointment_id := db.nextAppointmentId, patient_id := patient_id,
            provider_id := provider_id, department_id := department_id,
            case_id := case_id, starts_at := starts_at_val,
            ends_at := ends_at_val, status := status, reason := reason,
            location := location, created_at := db.now }
        Except.ok
          ({ db with appointments := db.appointments ++ [a],
                     nextAppointmentId := db.nextAppointmentId + 1 }, a)

/- ## Spec-side characterizations

These definitions follow the words of the spec (not the source); the
theorems below compare the source-derived functions against them. -/

/-- Rendering of a decimal digit. -/
def dchar : Nat → Char
  | 0 => '0' | 1 => '1' | 2 => '2' | 3 => '3' | 4 => '4'
  | 5 => '5' | 6 => '6' | 7 => '7' | 8 => '8' | _ => '9'

/-- A patient row whose last name contains `ana` (capitalised). -/
def wSearchPatient : Patient :=
  { patient_id := 1, mrn := some ("M-9"), first_name := "Luz",
    last_name := "Santana", dob := none, sex := none, phone := none,
    email := none, status := "active", created_at := 0 }

/-- A store holding only `wSearchPatient`. -/
def wSearchDB : DB := { emptyDB with patients := [wSearchPatient] }

/-- An invoice of 100 for patient 1. -/
def wInvoice : Invoice :=
  { invoice_id := 1, patient_id := 1, status := "issued",
    issued_at := some 5, due_at := some 10, total_amount := 100 }

/-- A payment of 30 against `wInvoice`. -/
def wPayment : Payment :=
  { payment_id := 1, invoice_id := 1, amount := 30 }

/-- A store holding `wInvoice` partially paid by `wPayment`. -/
def wBillingDB : DB := { emptyDB with invoices := [wInvoice], payments := [wPayment] }

/-- The record `outstanding_invoices` maps `wInvoice` to. -/
def wOutRec : OutInvoiceRec :=
  { invoice_id := 1, status := "issued", issued_at := some 5,
    due_at := some 10, total_amount := 100, paid_amount := 30, balance := 70 }

/- ## General lemmas -/

/-- The schema default and every hard-coded table name of the catalog pass
`_validate_ident`, so the identifier interpolations of the builders never
fail. -/
lemma hardcoded_idents_valid :
    (validate_ident DB_SCHEMA = Except.ok DB_SCHEMA) ∧
    ∀ t ∈ ["patients", "patient_contacts", "appointments", "providers",
           "departments", "cases", "encounters", "notes", "tasks",
           "communications", "invoices", "payments", "claims", "payers",
           "allergies", "prescriptions", "medications"],
      validate_ident t = Except.ok t := by
  refine ⟨rfl, ?_⟩
  intro t ht
  fin_cases ht <;> rfl

/-- `identTailMatch` accepts exactly the all-continuation-character lists,
optionally closed by one trailing newline. -/
lemma identTailMatch_iff (cs : List Char) :
    identTailMatch cs = true ↔
      (cs.all isIdentChar = true ∨
        ∃ ds, ds.all isIdentChar = true ∧ cs = ds ++ ['\n']) := by
  induction cs with
  | nil => simp [identTailMatch]
  | cons c cs ih =>
    simp only [identTailMatch, Bool.or_eq_true, Bool.and_eq_true, beq_iff_eq,
      List.isEmpty_iff, List.all_cons, ih]
    constructor
    · rintro (⟨rfl, rfl⟩ | ⟨hc, hall | ⟨ds, hds, rfl⟩⟩)
      · exact Or.inr ⟨[], by simp⟩
      · exact Or.inl ⟨hc, hall⟩
      · exact Or.inr ⟨c :: ds, by simp [hc, hds]⟩
    · rintro (⟨hc, hall⟩ | ⟨ds, hds, heq⟩)
      · exact Or.inr ⟨hc, Or.inl hall⟩
      · cases ds with
        | nil =>
          simp only [List.nil_append, List.cons.injEq] at heq
          obtain ⟨rfl, rfl⟩ := heq
          exact Or.inl ⟨rfl, rfl⟩
        | cons d ds' =>
          simp only [List.cons_append, List.cons.injEq] at heq
          obtain ⟨rfl, rfl⟩ := heq
          simp only [List.all_cons, Bool.and_eq_true] at hds
          exact Or.inr ⟨hds.1, Or.inr ⟨ds', hds.2, rfl⟩⟩

/-- `identReMatch` accepts exactly the grammar, plus one trailing
newline. -/
lemma identReMatch_iff (s : String) :
    identReMatch s = true ↔
      (identGrammar s = true ∨
        ∃ t, identGrammar t = true ∧ s = t ++ "\n") := by
  obtain ⟨l⟩ := s
  cases l with
  | nil =>
    have h1 : identReMatch ⟨[]⟩ = false := rfl
    have h2 : identGrammar (⟨[]⟩ : String) = false := rfl
    rw [h1, h2]
    constructor
    · intro h; cases h
    · rintro (h | ⟨⟨tl⟩, ht, heq⟩)
      · cases h
      · have hd : (⟨[]⟩ : String).data = (String.mk tl ++ "\n").data := by rw [heq]
        simp [String.data_append] at hd
  | cons c cs =>
    simp only [identReMatch, identGrammar, String.toList, Bool.and_eq_true,
      identTailMatch_iff]
    constructor
    · rintro ⟨hc, hall | ⟨ds, hds, rfl⟩⟩
      · exact Or.inl (by simp [hc, hall])
      · refine Or.inr ⟨⟨c :: ds⟩, by simp [hc, hds], ?_⟩
        apply String.ext
        simp [String.data_append]
    · rintro (h | ⟨⟨tl⟩, ht, heq⟩)
      · exact ⟨h.1, Or.inl h.2⟩
      · have hdata : c :: cs = tl ++ ['\n'] := by
          have := congrArg String.data heq
          simpa [String.data_append] using this
        cases tl with
        | nil => simp [identGrammar] at ht
        | cons d ds =>
          simp only [List.cons_append, List.cons.injEq] at hdata
          obtain ⟨rfl, rfl⟩ := hdata
          simp only [identGrammar, String.toList, Bool.and_eq_true] at ht
          exact ⟨ht.1, Or.inr ⟨ds, ht.2, rfl⟩⟩

/- ## C1: identifier validation -/

/-- C1 (counterexample): `"a\n"` does not match the identifier grammar,
yet `_validate_ident` accepts it and returns it unchanged — Python `$`
also matches just before a trailing newline. -/
theorem validate_ident_newline_cx :
    identGrammar ("a\n") = false ∧ validate_ident ("a\n") = Except.ok ("a\n") := by
  exact ⟨rfl, rfl⟩

/-- C1 (amended): `_validate_ident(s)` succeeds and returns `s` unchanged
exactly when `s` matches the identifier grammar or is a grammar-matching
string followed by one trailing newline; every other string fails with
`InvalidIdentifier`. -/
theorem validate_ident_spec (s : String) :
    (validate_ident s = Except.ok s ↔
      (identGrammar s = true ∨ ∃ t, identGrammar t = true ∧ s = t ++ "\n")) ∧
    (validate_ident s = Except.error (Err.invalidIdentifier s) ↔
      ¬(identGrammar s = true ∨ ∃ t, identGrammar t = true ∧ s = t ++ "\n")) := by
  constructor
  · constructor
    · intro hok
      by_cases h : identReMatch s = true
      · exact (identReMatch_iff s).mp h
      · unfold validate_ident at hok
        rw [if_neg h] at hok
        cases hok
    · intro hx
      have h : identReMatch s = true := (identReMatch_iff s).mpr hx
      unfold validate_ident
      rw [if_pos h]
  · constructor
    · intro herr hx
      have h : identReMatch s = true := (identReMatch_iff s).mpr hx
      unfold validate_ident at herr
      rw [if_pos h] at herr
      cases herr
    · intro hx
      have h : ¬identReMatch s = true := fun hh => hx ((identReMatch_iff s).mp hh)
      unfold validate_ident
      rw [if_neg h]

/- ## C5: not-found sentinel of `get_patient` -/

/-- C5: when no patient row has the requested id, `get_patient` returns
the explicit not-found sentinel — a distinguished non-error value, not a
store-level fault. -/
theorem getPatient_notFound (db : DB) (patient_id : Int)
    (h : ∀ p ∈ db.patients, p.patient_id ≠ patient_id) :
    getPatient db patient_id = GetPatientResult.notFoundSentinel := by
  unfold getPatient
  have hf : db.patients.find? (fun p => p.patient_id == patient_id) = none := by
    rw [List.find?_eq_none]
    intro p hp
    simp [h p hp]
  rw [hf]

/-- C5 witness: a concrete store with no patient 42. -/
theorem getPatient_notFound_witness :
    getPatient wSearchDB 42 = GetPatientResult.notFoundSentinel :=
  getPatient_notFound wSearchDB 42 (by decide)

/- ## C10: empty-string filters are dropped -/

/-- C10: an empty-string `name` or `mrn` contributes no clause and no
parameter — `search_patients` behaves identically to the call without that
argument, both in the built statement and against the store; in
particular `mrn=""` never filters for an empty `mrn`. -/
theorem searchPatients_empty_filters (db : DB) (name mrn : Option String)
    (limit : Int) :
    searchPatients db name (some ("")) limit = searchPatients db name none limit ∧
    searchPatients db (some ("")) mrn limit = searchPatients db none mrn limit ∧
    search_patients_stmt name (some ("")) limit = search_patients_stmt name none limit ∧
    search_patients_stmt (some ("")) mrn limit = search_patients_stmt none mrn limit := by
  refine ⟨rfl, rfl, rfl, rfl⟩

/- ## C2: bounds validation precedes execution -/

/-- C2: each read operation that accepts a `limit` (or `days`, or
`limit_per_type`) argument rejects out-of-range values with `OutOfRange`:
the builder returns the error instead of any statement — so nothing can
reach the store — and the store-level reads return the error with the state
untouched. -/
theorem out_of_range_before_execution
    (db : DB) (patient_id provider_id : Int) (name mrn : Option String)
    (limit days lpt : Int)
    (hl : limit < 1 ∨ 200 < limit) (hd : days < 1 ∨ 365 < days)
    (hlpt : lpt < 1 ∨ 200 < lpt) :
    failsOutOfRange (search_patients_stmt name mrn limit) ∧
    failsOutOfRange (searchPatients db name mrn limit) ∧
    (∀ d, failsOutOfRange (upcoming_for_patient_stmt patient_id d limit)) ∧
    (∀ l, failsOutOfRange (upcoming_for_patient_stmt patient_id days l)) ∧
    (∀ d, failsOutOfRange (upcoming_for_provider_stmt provider_id d limit)) ∧
    (∀ l, failsOutOfRange (upcoming_for_provider_stmt provider_id days l)) ∧
    failsOutOfRange (patient_case_timeline_stmts patient_id lpt) ∧
    failsOutOfRange (outstanding_invoices_stmt patient_id limit) ∧
    failsOutOfRange (outstandingInvoices db patient_id limit) ∧
    failsOutOfRange (claim_status_stmt patient_id limit) ∧
    failsOutOfRange (active_prescriptions_stmt patient_id limit) := by
  refine ⟨?_, ?_, ?_, ?_, ?_, ?_, ?_, ?_, ?_, ?_, ?_⟩
  · unfold search_patients_stmt
    split
    · exact ⟨_, rfl⟩
    · next hc => exfalso; simp only [Bool.or_eq_true, decide_eq_true_eq] at hc; omega
  · unfold searchPatients
    split
    · exact ⟨_, rfl⟩
    · next hc => exfalso; simp only [Bool.or_eq_true, decide_eq_true_eq] at hc; omega
  · intro d
    unfold upcoming_for_patient_stmt
    split
    · exact ⟨_, rfl⟩
    · split
      · exact ⟨_, rfl⟩
      · next hc => exfalso; simp only [Bool.or_eq_true, decide_eq_true_eq] at hc; omega
  · intro l
    unfold upcoming_for_patient_stmt
    split
    · exact ⟨_, rfl⟩
    · next hc => exfalso; simp only [Bool.or_eq_true, decide_eq_true_eq] at hc; omega
  · intro d
    unfold upcoming_for_provider_stmt
    split
    · exact ⟨_, rfl⟩
    · split
      · exact ⟨_, rfl⟩
      · next hc => exfalso; simp only [Bool.or_eq_true, decide_eq_true_eq] at hc; omega
  · intro l
    unfold upcoming_for_provider_stmt
    split
    · exact ⟨_, rfl⟩
    · next hc => exfalso; simp only [Bool.or_eq_true, decide_eq_true_eq] at hc; omega
  · unfold patient_case_timeline_stmts
    split
    · exact ⟨_, rfl⟩
    · next hc => exfalso; simp only [Bool.or_eq_true, decide_eq_true_eq] at hc; omega
  · unfold outstanding_invoices_stmt
    split
    · exact ⟨_, rfl⟩
    · next hc => exfalso; simp only [Bool.or_eq_true, decide_eq_true_eq] at hc; omega
  · unfold outstandingInvoices
    split
    · exact ⟨_, rfl⟩
    · next hc => exfalso; simp only [Bool.or_eq_true, decide_eq_true_eq] at hc; omega
  · unfold claim_status_stmt
    split
    · exact ⟨_, rfl⟩
    · next hc => exfalso; simp only [Bool.or_eq_true, decide_eq_true_eq] at hc; omega
  · unfold active_prescriptions_stmt
    split
    · exact ⟨_, rfl⟩
    · next hc => exfalso; simp only [Bool.or_eq_true, decide_eq_true_eq] at hc; omega

/-- C2 witness: `limit = 0`, `days = 366` and `limit_per_type = 0` are all
rejected at concrete calls. -/
theorem out_of_range_witness :
    failsOutOfRange (search_patients_stmt none none 0) ∧
    failsOutOfRange (searchPatients emptyDB none none 0) ∧
    failsOutOfRange (upcoming_for_patient_stmt 1 366 50) ∧
    failsOutOfRange (patient_case_timeline_stmts 1 0) ∧
    failsOutOfRange (outstandingInvoices emptyDB 1 0) := by
  have h := out_of_range_before_execution emptyDB 1 1 none none 0 366 0
    (Or.inl (by decide)) (Or.inr (by decide)) (Or.inl (by decide))
  exact ⟨h.1, h.2.1, h.2.2.2.1 50, h.2.2.2.2.2.2.1, h.2.2.2.2.2.2.2.2.1⟩

/- ## C3: blank `starts_at` in `create_appointment` -/

/-- C3 (counterexample): with a falsy `patient_id` and a blank `starts_at`,
`create_appointment` fails with `MissingRequiredField` (`patient_id is
required`), not with `MissingTimestamp` — the `patient_id` check runs
first. -/
theorem create_appointment_zero_pid_cx :
    createAppointment emptyDB 0 ("") none none none none ("scheduled") none none =
      Except.error (Err.missingRequiredField ("patient_id is required")) ∧
    Err.missingRequiredField ("patient_id is required") ≠
      Err.missingTimestamp ("timestamp is required") := by
  exact ⟨rfl, by decide⟩

/-- C3 (amended): every `create_appointment` call with a nonzero
`patient_id` and an empty or whitespace-only `starts_at` fails with
`MissingTimestamp`; the error result carries no updated store, so no
insert occurs and the appointments state is unchanged. -/
theorem create_appointment_blank_ts (db : DB) (patient_id : Int)
    (starts_at : String) (ends_at : Option String)
    (provider_id department_id case_id : Option Int) (status : String)
    (reason location : Option String)
    (h0 : patient_id ≠ 0) (hb : pyStrip starts_at = "") :
    createAppointment db patient_id starts_at ends_at provider_id
        department_id case_id status reason location =
      Except.error (Err.missingTimestamp ("timestamp is required")) := by
  unfold createAppointment
  rw [if_neg (by simp [h0])]
  have hts : parse_ts starts_at =
      Except.error (Err.missingTimestamp ("timestamp is required")) := by
    unfold parse_ts
    rw [if_pos (by simp [hb])]
  rw [hts]

/-- C3 witness: patient 7 with a whitespace-only timestamp. -/
theorem create_appointment_blank_ts_witness :
    createAppointment emptyDB 7 ("   ") none none none none ("scheduled") none none =
      Except.error (Err.missingTimestamp ("timestamp is required")) :=
  create_appointment_blank_ts emptyDB 7 ("   ") none none none none ("scheduled")
    none none (by decide) (by rfl)

/- ## C6 helper lemmas: the date parser inverts strict rendering -/

lemma digitVal_le (c : Char) (h : isDig c = true) : digitVal c ≤ 9 := by
  simp [isDig] at h
  simp [digitVal]
  omega

lemma dchar_digitVal (c : Char) (h : isDig c = true) : dchar (digitVal c) = c := by
  simp only [isDig, Bool.and_eq_true, decide_eq_true_eq] at h
  obtain ⟨h1, h2⟩ := h
  have hd : c.toNat = 48 ∨ c.toNat = 49 ∨ c.toNat = 50 ∨ c.toNat = 51 ∨ c.toNat = 52 ∨
      c.toNat = 53 ∨ c.toNat = 54 ∨ c.toNat = 55 ∨ c.toNat = 56 ∨ c.toNat = 57 := by omega
  rcases hd with h|h|h|h|h|h|h|h|h|h <;>
    [ (have hc : c = '0' := Char.ext (UInt32.ext h));
      (have hc : c = '1' := Char.ext (UInt32.ext h));
      (have hc : c = '2' := Char.ext (UInt32.ext h));
      (have hc : c = '3' := Char.ext (UInt32.ext h));
      (have hc : c = '4' := Char.ext (UInt32.ext h));
      (have hc : c = '5' := Char.ext (UInt32.ext h));
      (have hc : c = '6' := Char.ext (UInt32.ext h));
      (have hc : c = '7' := Char.ext (UInt32.ext h));
      (have hc : c = '8' := Char.ext (UInt32.ext h));
      (have hc : c = '9' := Char.ext (UInt32.ext h))] <;>
    subst hc <;> decide

/-- C4: every record returned by `outstanding_invoices` has a strictly
positive computed balance — `total_amount` minus the sum of the invoice's
payments, zero when there are none — so no fully paid or overpaid invoice
is ever returned, for any store state. -/
theorem outstandingInvoices_pos (db : DB) (patient_id limit : Int)
    (rs : List OutInvoiceRec)
    (h : outstandingInvoices db patient_id limit = Except.ok rs) :
    ∀ r ∈ rs, 0 < r.balance ∧ r.balance = r.total_amount - r.paid_amount ∧
      ∃ i ∈ db.invoices, i.invoice_id = r.invoice_id ∧ i.patient_id = patient_id ∧
        r.total_amount = i.total_amount ∧
        r.paid_amount = (paid_amount_opt db i.invoice_id).getD 0 := by
  intro r hr
  unfold outstandingInvoices at h
  split at h
  case isTrue => cases h
  case isFalse =>
    injection h with h
    subst h
    obtain ⟨i, hi, rfl⟩ := List.mem_map.mp hr
    have hi2 : i ∈ (db.invoices.filter (outstandingFilter db patient_id)).mergeSort
        outstandingOrder := List.mem_of_mem_take hi
    have hi3 := List.mem_mergeSort.mp hi2
    obtain ⟨hmem, hfil⟩ := List.mem_filter.mp hi3
    unfold outstandingFilter at hfil
    simp only [Bool.and_eq_true, beq_iff_eq, decide_eq_true_eq] at hfil
    obtain ⟨hpid, hbal⟩ := hfil
    unfold outRec
    refine ⟨hbal, rfl, i, hmem, rfl, hpid, rfl, rfl⟩

/-- C4 witness: an invoice of 100 with a single payment of 30 is returned
with balance 70 > 0. -/
theorem outstandingInvoices_pos_witness :
    0 < wOutRec.balance ∧
    wOutRec.balance = wOutRec.total_amount - wOutRec.paid_amount ∧
    ∃ i ∈ wBillingDB.invoices, i.invoice_id = wOutRec.invoice_id ∧
      i.patient_id = 1 ∧ wOutRec.total_amount = i.total_amount ∧
      wOutRec.paid_amount = (paid_amount_opt wBillingDB i.invoice_id).getD 0 :=
  outstandingInvoices_pos wBillingDB 1 50 [wOutRec]
    (by
      unfold outstandingInvoices
      rw [if_neg (by decide)]
      have hfil : outstandingFilter wBillingDB 1 wInvoice = true := by
        unfold outstandingFilter paid_amount_opt invoicePayments
        norm_num [wBillingDB, wInvoice, wPayment, emptyDB]
      have hrec : outRec wBillingDB wInvoice = wOutRec := by
        unfold outRec paid_amount_opt invoicePayments
        norm_num [wBillingDB, wInvoice, wPayment, emptyDB, wOutRec]
      have h1 : wBillingDB.invoices.filter (outstandingFilter wBillingDB 1) =
          [wInvoice] := by
        rw [show wBillingDB.invoices = [wInvoice] from rfl]
        simp [hfil]
      rw [h1]
      rw [show List.mergeSort [wInvoice] outstandingOrder = [wInvoice] from by simp]
      rw [show List.take (Int.toNat 50) [wInvoice] = [wInvoice] from rfl]
      simp [hrec])
    wOutRec (by simp)

/- ## C7 helper lemmas: substring occurrence through concatenation -/

/-- A substring of the right part occurs in the concatenation. -/
lemma listInfix_append_right (p a b : List Char) (h : listInfix p b = true) :
    listInfix p (a ++ b) = true := by
  induction a with
  | nil => exact h
  | cons c a ih =>
    show (listIsPrefix p (c :: (a ++ b)) || listInfix p (a ++ b)) = true
    rw [ih]
    simp

/-- A substring of the right part occurs in the concatenated string. -/
lemma strContains_append_right (a b pat : String)
    (h : strContains b pat = true) : strContains (a ++ b) pat = true := by
  unfold strContains at h ⊢
  rw [String.data_append]
  exact listInfix_append_right _ _ _ h

set_option maxRecDepth 40000 in
/-- The fixed statement texts of the bounded multi-row reads all contain
the `limit %s` placeholder. -/
lemma fixed_texts_contain_limit :
    strContains upcoming_for_patient_text ("limit %s") = true ∧
    strContains upcoming_for_provider_text ("limit %s") = true ∧
    strContains timeline_cases_text ("limit %s") = true ∧
    strContains timeline_encounters_text ("limit %s") = true ∧
    strContains timeline_notes_text ("limit %s") = true ∧
    strContains timeline_tasks_text ("limit %s") = true ∧
    strContains timeline_communications_text ("limit %s") = true ∧
    strContains outstanding_invoices_text ("limit %s") = true ∧
    strContains claim_status_text ("limit %s") = true ∧
    strContains active_prescriptions_text ("limit %s") = true := by
  refine ⟨?_, ?_, ?_, ?_, ?_, ?_, ?_, ?_, ?_, ?_⟩ <;> decide

/- ## C7: bounded row limits -/

set_option maxRecDepth 40000 in
/-- C7 (counterexample): `list_tables`, `get_patient_contacts` and
`allergies_for_patient` are multi-row reads whose built statements contain
no `limit` clause at all and bind no limit parameter. -/
theorem unbounded_reads_cx :
    strContains list_tables_stmt.text ("limit") = false ∧
    list_tables_stmt.params = [SqlParam.str DB_SCHEMA] ∧
    strContains (get_patient_contacts_stmt 1).text ("limit") = false ∧
    (get_patient_contacts_stmt 1).params = [SqlParam.int 1] ∧
    strContains (allergies_stmt 1).text ("limit") = false ∧
    (allergies_stmt 1).params = [SqlParam.int 1] := by
  refine ⟨by decide, rfl, by decide, rfl, by decide, rfl⟩

/-- C7 (amended): every multi-row read operation that accepts a `limit`
(or `limit_per_type`) argument — `search_patients`, both upcoming-
appointment reads, the five timeline sub-statements, `outstanding_invoices`,
`claim_status_for_patient`, `active_prescriptions` — carries `limit %s` in
its statement text with the limit value as the last bound parameter, never
inlined; `list_tables`, `get_patient_contacts` and `allergies_for_patient`
build statements with no limit clause (see the counterexample). -/
theorem bounded_reads_bound_limit (patient_id provider_id days limit lpt : Int)
    (name mrn : Option String)
    (hl : 1 ≤ limit ∧ limit ≤ 200) (hd : 1 ≤ days ∧ days ≤ 365)
    (hlpt : 1 ≤ lpt ∧ lpt ≤ 200) :
    (∃ st, search_patients_stmt name mrn limit = Except.ok st ∧
      strContains st.text ("limit %s") = true ∧
      st.params.getLast? = some (SqlParam.int limit)) ∧
    (∃ st, upcoming_for_patient_stmt patient_id days limit = Except.ok st ∧
      strContains st.text ("limit %s") = true ∧
      st.params.getLast? = some (SqlParam.int limit)) ∧
    (∃ st, upcoming_for_provider_stmt provider_id days limit = Except.ok st ∧
      strContains st.text ("limit %s") = true ∧
      st.params.getLast? = some (SqlParam.int limit)) ∧
    (∃ sts, patient_case_timeline_stmts patient_id lpt = Except.ok sts ∧
      sts ≠ [] ∧ ∀ st ∈ sts, strContains st.text ("limit %s") = true ∧
        st.params.getLast? = some (SqlParam.int lpt)) ∧
    (∃ st, outstanding_invoices_stmt patient_id limit = Except.ok st ∧
      strContains st.text ("limit %s") = true ∧
      st.params.getLast? = some (SqlParam.int limit)) ∧
    (∃ st, claim_status_stmt patient_id limit = Except.ok st ∧
      strContains st.text ("limit %s") = true ∧
      st.params.getLast? = some (SqlParam.int limit)) ∧
    (∃ st, active_prescriptions_stmt patient_id limit = Except.ok st ∧
      strContains st.text ("limit %s") = true ∧
      st.params.getLast? = some (SqlParam.int limit)) := by
  obtain ⟨hl1, hl2⟩ := hl
  obtain ⟨hd1, hd2⟩ := hd
  obtain ⟨hp1, hp2⟩ := hlpt
  refine ⟨?_, ?_, ?_, ?_, ?_, ?_, ?_⟩
  · unfold search_patients_stmt
    rw [if_neg (by simp only [Bool.or_eq_true, decide_eq_true_eq, not_or]; omega)]
    refine ⟨_, rfl, ?_, List.getLast?_concat _⟩
    unfold search_patients_text
    apply strContains_append_right
    decide
  · unfold upcoming_for_patient_stmt
    rw [if_neg (by simp only [Bool.or_eq_true, decide_eq_true_eq, not_or]; omega),
      if_neg (by simp only [Bool.or_eq_true, decide_eq_true_eq, not_or]; omega)]
    exact ⟨_, rfl, fixed_texts_contain_limit.1, rfl⟩
  · unfold upcoming_for_provider_stmt
    rw [if_neg (by simp only [Bool.or_eq_true, decide_eq_true_eq, not_or]; omega),
      if_neg (by simp only [Bool.or_eq_true, decide_eq_true_eq, not_or]; omega)]
    exact ⟨_, rfl, fixed_texts_contain_limit.2.1, rfl⟩
  · unfold patient_case_timeline_stmts
    rw [if_neg (by simp only [Bool.or_eq_true, decide_eq_true_eq, not_or]; omega)]
    refine ⟨_, rfl, by simp, ?_⟩
    intro st hst
    have ht := fixed_texts_contain_limit
    fin_cases hst
    · exact ⟨ht.2.2.1, rfl⟩
    · exact ⟨ht.2.2.2.1, rfl⟩
    · exact ⟨ht.2.2.2.2.1, rfl⟩
    · exact ⟨ht.2.2.2.2.2.1, rfl⟩
    · exact ⟨ht.2.2.2.2.2.2.1, rfl⟩
  · unfold outstanding_invoices_stmt
    rw [if_neg (by simp only [Bool.or_eq_true, decide_eq_true_eq, not_or]; omega)]
    exact ⟨_, rfl, fixed_texts_contain_limit.2.2.2.2.2.2.2.1, rfl⟩
  · unfold claim_status_stmt
    rw [if_neg (by simp only [Bool.or_eq_true, decide_eq_true_eq, not_or]; omega)]
    exact ⟨_, rfl, fixed_texts_contain_limit.2.2.2.2.2.2.2.2.1, rfl⟩
  · unfold active_prescriptions_stmt
    rw [if_neg (by simp only [Bool.or_eq_true, decide_eq_true_eq, not_or]; omega)]
    exact ⟨_, rfl, fixed_texts_contain_limit.2.2.2.2.2.2.2.2.2, rfl⟩

/-- C7 witness: concrete in-range arguments for two of the bounded
reads. -/
theorem bounded_reads_bound_limit_witness :
    (∃ st, search_patients_stmt none none 20 = Except.ok st ∧
      strContains st.text ("limit %s") = true ∧
      st.params.getLast? = some (SqlParam.int 20)) ∧
    (∃ st, outstanding_invoices_stmt 1 50 = Except.ok st ∧
      strContains st.text ("limit %s") = true ∧
      st.params.getLast? = some (SqlParam.int 50)) := by
  have h1 := bounded_reads_bound_limit 1 1 30 20 25 none none
    ⟨by decide, by decide⟩ ⟨by decide, by decide⟩ ⟨by decide, by decide⟩
  have h2 := bounded_reads_bound_limit 1 1 30 50 25 none none
    ⟨by decide, by decide⟩ ⟨by decide, by decide⟩ ⟨by decide, by decide⟩
  exact ⟨h1.1, h2.2.2.2.2.1⟩

/- ## C8 helper lemmas: `LIKE` matching of wrapped-wildcard patterns -/

/-- A lone `%` matches anything. -/
lemma likeMatch_percent (s : List Char) : likeMatch ['%'] s = true := by
  induction s with
  | nil => simp [likeMatch]
  | cons c s ih => simp [likeMatch, ih]

/-- A leading `%` absorbs any prefix of the subject. -/
lemma likeMatch_percent_absorb (t ps s : List Char) (h : likeMatch ps s = true) :
    likeMatch ('%' :: ps) (t ++ s) = true := by
  induction t with
  | nil =>
    cases s with
    | nil => simp [likeMatch, h]
    | cons c s => simp [likeMatch, h]
  | cons c t ih => simp [likeMatch, ih]

/-- A pattern that is a literal run followed by `%` matches that run
followed by anything: every pattern character matches itself (also the
wildcards, which may consume exactly their own occurrence). -/
lemma likeMatch_self_percent (n b : List Char) :
    likeMatch (n ++ ['%']) (n ++ b) = true := by
  induction n with
  | nil => simpa using likeMatch_percent b
  | cons c n ih =>
    by_cases hc : c = '%'
    · subst hc
      simp only [List.cons_append]
      rw [likeMatch]
      simp only [beq_self_eq_true, if_true, Bool.or_eq_true]
      exact Or.inr (by simpa using likeMatch_percent_absorb [] _ _ ih)
    · simp [likeMatch, hc, ih]

/-- Prefix decomposition. -/
lemma listIsPrefix_exists (p s : List Char) (h : listIsPrefix p s = true) :
    ∃ t, s = p ++ t := by
  induction p generalizing s with
  | nil => exact ⟨s, rfl⟩
  | cons c p ih =>
    cases s with
    | nil => cases h
    | cons d s =>
      simp only [listIsPrefix, Bool.and_eq_true, beq_iff_eq] at h
      obtain ⟨rfl, h2⟩ := h
      obtain ⟨t, rfl⟩ := ih s h2
      exact ⟨t, rfl⟩

/-- Infix decomposition. -/
lemma listInfix_exists (p s : List Char) (h : listInfix p s = true) :
    ∃ a b, s = a ++ (p ++ b) := by
  induction s with
  | nil =>
    obtain ⟨t, ht⟩ := listIsPrefix_exists p [] h
    exact ⟨[], t, ht⟩
  | cons c s ih =>
    simp only [listInfix, Bool.or_eq_true] at h
    rcases h with h1 | h2
    · obtain ⟨t, ht⟩ := listIsPrefix_exists _ _ h1
      exact ⟨[], t, ht⟩
    · obtain ⟨a, b, rfl⟩ := ih h2
      exact ⟨c :: a, b, rfl⟩

/-- Case-insensitive substring occurrence implies an `ILIKE` match of the
wrapped-wildcard pattern the builder produces. -/
lemma ilike_of_icontains (field sub : String) (h : icontains field sub = true) :
    ilike ("%" ++ sub ++ "%") field = true := by
  unfold icontains at h
  obtain ⟨a, b, hdecomp⟩ := listInfix_exists _ _ h
  unfold ilike lowerL
  rw [show ("%" ++ sub ++ "%").data = ('%' :: sub.data) ++ ['%'] from by
    simp [String.data_append]]
  rw [List.map_append, List.map_cons]
  simp only [List.map_cons, List.map_nil]
  rw [show Char.toLower '%' = '%' from rfl]
  unfold lowerL at hdecomp
  rw [hdecomp]
  exact likeMatch_percent_absorb a _ _ (likeMatch_self_percent _ b)

/- ## C8: case-insensitive name search -/

/-- C8: a `name` filter matches case-insensitively against substrings of
both `first_name` and `last_name` — any row one of whose two name fields
contains the input (ignoring case) passes the filter — and when no row
passes the filter the operation returns an empty sequence, not an error;
for any in-range limit the operation always returns a sequence. -/
theorem search_patients_name_match (db : DB) (name : String) (limit : Int)
    (hlim : 1 ≤ limit ∧ limit ≤ 200) :
    (∀ p : Patient,
      icontains p.first_name name = true ∨ icontains p.last_name name = true →
      searchFilter (some name) none p = true) ∧
    ((∀ p ∈ db.patients, searchFilter (some name) none p = false) →
      searchPatients db (some name) none limit = Except.ok []) ∧
    (∃ rs, searchPatients db (some name) none limit = Except.ok rs) := by
  obtain ⟨h1, h2⟩ := hlim
  refine ⟨?_, ?_, ?_⟩
  · intro p hp
    by_cases hn : name = ""
    · subst hn
      rfl
    · unfold searchFilter
      simp only [optTruthy, optVal]
      rw [if_neg (by simp), if_pos (by simp [hn])]
      rcases hp with h | h
      · simp [ilike_of_icontains _ _ h]
      · simp [ilike_of_icontains _ _ h]
  · intro hall
    unfold searchPatients
    rw [if_neg (by simp only [Bool.or_eq_true, decide_eq_true_eq, not_or]; omega)]
    have hfil : db.patients.filter (searchFilter (some name) none) = [] := by
      rw [List.filter_eq_nil_iff]
      intro p hp
      simp [hall p hp]
    rw [hfil]
    simp
  · unfold searchPatients
    rw [if_neg (by simp only [Bool.or_eq_true, decide_eq_true_eq, not_or]; omega)]
    exact ⟨_, rfl⟩

/-- C8 witness: the search semantics at a concrete store (one patient
whose last name `Santana` contains `ana` up to case) and the default
limit. -/
theorem search_patients_name_match_witness :
    (∀ p : Patient,
      icontains p.first_name ("ana") = true ∨ icontains p.last_name ("ana") = true →
      searchFilter (some ("ana")) none p = true) ∧
    ((∀ p ∈ wSearchDB.patients, searchFilter (some ("ana")) none p = false) →
      searchPatients wSearchDB (some ("ana")) none 20 = Except.ok []) ∧
    (∃ rs, searchPatients wSearchDB (some ("ana")) none 20 = Except.ok rs) :=
  search_patients_name_match wSearchDB "ana" 20 ⟨by decide, by decide⟩

/- ## C9 helper lemma -/

/-- `find?` skips a prefix on which the predicate is everywhere false. -/
lemma find?_append_of_none {α : Type} (p : α → Bool) (l₁ l₂ : List α)
    (h : ∀ x ∈ l₁, p x = false) : (l₁ ++ l₂).find? p = l₂.find? p := by
  induction l₁ with
  | nil => rfl
  | cons a l ih =>
    rw [List.cons_append, List.find?_cons_of_neg]
    · exact ih (fun x hx => h x (by simp [hx]))
    · simp [h a (by simp)]

/- ## C9: create/get round trip -/

/-- C9: for any well-formed store, `create_patient("Ana","Ruiz",mrn="M-1")`
succeeds, and `get_patient` on the returned id finds exactly the created
record: same `patient_id` (the fresh serial id), `first_name`, `last_name`
and `mrn` equal to the inputs. -/
theorem create_get_patient_roundtrip (db : DB) (h : WF db) :
    ∃ db' rec,
      createPatient db ("Ana") ("Ruiz") (some ("M-1")) none none none none
          ("active") = Except.ok (db', rec) ∧
      rec.patient_id = db.nextPatientId ∧
      rec.first_name = "Ana" ∧ rec.last_name = "Ruiz" ∧
      rec.mrn = some ("M-1") ∧
      getPatient db' rec.patient_id = GetPatientResult.found rec := by
  refine ⟨_, _, rfl, rfl, rfl, rfl, rfl, ?_⟩
  unfold getPatient
  rw [find?_append_of_none]
  · simp [List.find?_cons]
  · intro q hq
    have := h q hq
    simp only [beq_eq_false_iff_ne, ne_eq]
    omega

/-- C9 witness: the round trip at the empty store. -/
theorem create_get_patient_roundtrip_witness :
    ∃ db' rec,
      createPatient emptyDB ("Ana") ("Ruiz") (some ("M-1")) none none none none
          ("active") = Except.ok (db', rec) ∧
      rec.patient_id = emptyDB.nextPatientId ∧
      rec.first_name = "Ana" ∧ rec.last_name = "Ruiz" ∧
      rec.mrn = some ("M-1") ∧
      getPatient db' rec.patient_id = GetPatientResult.found rec :=
  create_get_patient_roundtrip emptyDB (by intro p hp; simp [emptyDB] at hp)

end HospitalCRM
